import Mathlib

/-!
Verification development for the rival-review repository.

The embedding below models the decision core of the repository:
`trend_analysis.py` (the trend report: explosive review growth, ranking
jumps, newcomers to the top 5), and `check_new_apps.py` (persisted
snapshot load/save and the current-vs-past comparison).  Pure fragments
of the Python are translated into executable Lean definitions; pandas
DataFrame columns become optional fields, numeric coercion with
`errors="coerce"` becomes an `Option`-valued conversion, and the two
`NameError`/`KeyError` abort paths of `trend_analysis.main` become an
`Except` result.
-/

/-- Lexicographic comparison of character lists by code point, the order
Python's `sorted` uses on strings. -/
def strLeAux : List Char → List Char → Bool
  | [], _ => true
  | _ :: _, [] => false
  | a :: as, b :: bs =>
    if a.val < b.val then true
    else if b.val < a.val then false
    else strLeAux as bs

/-- String comparison used when the Python sorts lists of app names. -/
def strLe (a b : String) : Bool := strLeAux a.data b.data

/-- Propositional form of `strLe`, for use with `List.insertionSort`. -/
def str_le (a b : String) : Prop := strLe a b = true

instance : DecidableRel str_le := fun a b => inferInstanceAs (Decidable (_ = true))

/-- Stable sort of strings, modelling Python's `sorted` on names. -/
def sort_strings (l : List String) : List String := l.insertionSort str_le

/-- A JSON scalar cell of the rankings table.  Rank cells written by
`check_new_apps.compare_apps` are JSON integers or `null`, so numbers are
modelled as integers; strings stand for non-numeric text, which
`pd.to_numeric(errors="coerce")` turns into NaN. -/
inductive PyVal where
  | num : ℤ → PyVal
  | str : String → PyVal
  | bool : Bool → PyVal
  | null : PyVal
  deriving DecidableEq

/-- Conversion of a cell by `pd.to_numeric(errors="coerce")`
(trend_analysis.py lines 95-96): numbers stay, booleans become 0/1,
`null` and non-numeric text become NaN (`none`). -/
def toNumeric : PyVal → Option ℤ
  | .num n => some n
  | .bool b => some (if b then 1 else 0)
  | .str _ => none
  | .null => none

/-- Pandas elementwise `== False` used by the ad filter
(trend_analysis.py line 46): boolean `False` and the number 0 compare
equal to `False`; NaN, strings and everything else do not. -/
def is_false_val : PyVal → Bool
  | .bool b => !b
  | .num n => decide (n = 0)
  | _ => false

/-- One row of the rankings table loaded from `past_apps.json`
(trend_analysis.py line 31).  `app_name` is the `name` key (renamed at
line 33); every app card scraped by `check_new_apps.fetch_apps` carries a
name, so the field is total.  The other fields are `none` when the key is
absent from the record and `some .null` when it is present but null; a
pandas column exists when at least one record carries the key. -/
structure RawApp where
  app_name : String
  previous_rank : Option PyVal
  rank : Option PyVal
  ad : Option PyVal
  deriving DecidableEq

/-- Columns of `{"app_name", "previous_rank", "rank"}` missing from the
rankings DataFrame (trend_analysis.py lines 36-38): a column exists iff
some record carries the key; the empty frame has no columns at all. -/
def missing_columns (apps : List RawApp) : List String :=
  (if apps.isEmpty then ["app_name"] else [])
    ++ (if apps.any (fun a => a.previous_rank.isSome) then [] else ["previous_rank"])
    ++ (if apps.any (fun a => a.rank.isSome) then [] else ["rank"])

/-- The ad filter (trend_analysis.py lines 45-46): only applied when the
`ad` column exists; keeps the rows whose `ad` cell compares equal to
`False`. -/
def ad_filtered (apps : List RawApp) : List RawApp :=
  if apps.any (fun a => a.ad.isSome) then
    apps.filter (fun a =>
      match a.ad with
      | some v => is_false_val v
      | none => false)
  else apps

/-- The configurable constants of trend_analysis.py lines 12-16. -/
structure Config where
  review_threshold : ℕ
  rank_jump_threshold : ℤ
  top_n : ℤ
  max_rank_analysis : ℤ
  lookback_days : ℤ
  deriving DecidableEq

/-- The values hard-coded in trend_analysis.py: THRESHOLD_REVIEWS = 2,
THRESHOLD_RANK_JUMP = 1, TOP_N = 5, MAX_RANK_ANALYSIS = 15 * 20,
REVIEW_LOOKBACK_DAYS = 15. -/
def defaultConfig : Config :=
  { review_threshold := 2
    rank_jump_threshold := 1
    top_n := 5
    max_rank_analysis := 15 * 20
    lookback_days := 15 }

/-- One row of the historical reviews CSV as used by trend_analysis.py:
only the app name and the review date participate; `review_date` is the
result of `pd.to_datetime(errors="coerce")` (line 57), a day number for a
parseable date and `none` for NaT. -/
structure ReviewRow where
  app_name : String
  review_date : Option ℤ
  deriving DecidableEq

/-- Latest review date in the log, `reviews_df["review_date"].max()`
(trend_analysis.py line 63); pandas `max` skips NaT and yields NaT when
no date is parseable. -/
def last_review_date (revs : List ReviewRow) : Option ℤ :=
  (revs.filterMap (fun r => r.review_date)).max?

/-- Rows of the review log inside the lookback window
(trend_analysis.py lines 64-67): date at least
`last_date - (REVIEW_LOOKBACK_DAYS - 1)`.  Comparisons against NaT are
false, so an all-NaT log yields the empty selection. -/
def recent_reviews (cfg : Config) (revs : List ReviewRow) : List ReviewRow :=
  match last_review_date revs with
  | none => []
  | some d =>
      revs.filter (fun r =>
        match r.review_date with
        | some x => decide (d - (cfg.lookback_days - 1) ≤ x)
        | none => false)

/-- Number of recent reviews carrying a given app name, the per-name
result of `recent_reviews.groupby("app_name").size()`
(trend_analysis.py line 71). -/
def window_count_in (recent : List ReviewRow) (n : String) : ℕ :=
  (recent.filter (fun r => r.app_name == n)).length

/-- The reindexed weekly counts (trend_analysis.py line 74): one entry
per row of the ad-filtered rankings table, in table order, counting that
app's recent reviews (0 after `fillna` when it has none); review-log
names absent from the rankings table are dropped by the `reindex`. -/
def weekly_counts (apps : List RawApp) (recent : List ReviewRow) : List (String × ℕ) :=
  apps.map (fun a => (a.app_name, window_count_in recent a.app_name))

/-- One row of the explosive-reviews table (trend_analysis.py lines
60 and 77-82).  `current_rank` is the raw cell merged back from the
rankings table at line 80, before the numeric conversion of line 96. -/
structure ExploRow where
  app_name : String
  new_reviews : ℕ
  current_rank : Option PyVal
  deriving DecidableEq

/-- Raw `current_rank` cell of the first rankings row carrying the name,
as attached by the `how="left"` merge of trend_analysis.py line 80
(names are unique within a snapshot, spec section 3). -/
def current_rank_cell (apps : List RawApp) (n : String) : Option PyVal :=
  (apps.find? (fun a => a.app_name == n)).bind (fun a => a.rank)

/-- The explosive-reviews table (trend_analysis.py lines 69-82): weekly
counts strictly above THRESHOLD_REVIEWS, with the raw current rank
merged in. -/
def explosive_reviews_table (cfg : Config) (apps : List RawApp)
    (recent : List ReviewRow) : List ExploRow :=
  ((weekly_counts apps recent).filter (fun p => decide (cfg.review_threshold < p.2))).map
    (fun p => ⟨p.1, p.2, current_rank_cell apps p.1⟩)

/-- Previous rank after `pd.to_numeric(errors="coerce")` and
`fillna(300)` (trend_analysis.py lines 95 and 99): missing, null or
non-numeric cells become the sentinel 300. -/
def prev_rank_filled (a : RawApp) : ℤ :=
  ((a.previous_rank.bind toNumeric).getD 300)

/-- Current rank after `pd.to_numeric(errors="coerce")` and
`fillna(MAX_RANK_ANALYSIS)` (trend_analysis.py lines 96 and 100). -/
def current_rank_filled (cfg : Config) (a : RawApp) : ℤ :=
  ((a.rank.bind toNumeric).getD cfg.max_rank_analysis)

/-- Rank change, `previous_rank - current_rank`
(trend_analysis.py line 103). -/
def rank_change (cfg : Config) (a : RawApp) : ℤ :=
  prev_rank_filled a - current_rank_filled cfg a

/-- The ranking-jumps filter (trend_analysis.py lines 106-109):
previously known (`previous_rank < 300`), jumped more than the
threshold, and at least one rank within MAX_RANK_ANALYSIS. -/
def jump_pred (cfg : Config) (a : RawApp) : Bool :=
  decide (prev_rank_filled a < 300)
    && decide (cfg.rank_jump_threshold < rank_change cfg a)
    && (decide (prev_rank_filled a ≤ cfg.max_rank_analysis)
        || decide (current_rank_filled cfg a ≤ cfg.max_rank_analysis))

/-- Ascending comparison by rank change, the sort key of
`sort_values("rank_change", ascending=False)` at trend_analysis.py
line 110.  Pandas sorts ascending with a stable order on the small
frames this pipeline produces and then reverses the indexer for
`ascending=False`; the model sorts stably ascending and reverses. -/
def jump_le (cfg : Config) (a b : RawApp) : Prop :=
  rank_change cfg a ≤ rank_change cfg b

instance (cfg : Config) : DecidableRel (jump_le cfg) :=
  fun a b => inferInstanceAs (Decidable (_ ≤ _))

instance (cfg : Config) : IsTotal RawApp (jump_le cfg) :=
  ⟨fun a b => le_total (rank_change cfg a) (rank_change cfg b)⟩

instance (cfg : Config) : IsTrans RawApp (jump_le cfg) :=
  ⟨fun _ _ _ => le_trans⟩

/-- One row of the ranking-jumps table, the columns selected at
trend_analysis.py line 110. -/
structure JumpRow where
  app_name : String
  current_rank : ℤ
  previous_rank : ℤ
  rank_change : ℤ
  deriving DecidableEq

/-- Projection of a rankings row to a ranking-jumps row. -/
def jump_row (cfg : Config) (a : RawApp) : JumpRow :=
  ⟨a.app_name, current_rank_filled cfg a, prev_rank_filled a, rank_change cfg a⟩

/-- The ranking-jumps table (trend_analysis.py lines 106-110): filter,
sort by rank change descending, select columns. -/
def ranking_jumps_table (cfg : Config) (apps : List RawApp) : List JumpRow :=
  (((apps.filter (jump_pred cfg)).insertionSort (jump_le cfg)).reverse).map (jump_row cfg)

/-- Names with filled previous rank at most TOP_N, the set
`prev_top5_set` of trend_analysis.py line 116 (as a duplicate-free
list). -/
def prev_top5_set (cfg : Config) (apps : List RawApp) : List String :=
  ((apps.filter (fun a => decide (prev_rank_filled a ≤ cfg.top_n))).map
    (fun a => a.app_name)).dedup

/-- Names with filled current rank at most TOP_N, the set
`curr_top5_set` of trend_analysis.py line 117. -/
def curr_top5_set (cfg : Config) (apps : List RawApp) : List String :=
  ((apps.filter (fun a => decide (current_rank_filled cfg a ≤ cfg.top_n))).map
    (fun a => a.app_name)).dedup

/-- Sorted names that entered the top N,
`sorted(curr_top5_set - prev_top5_set)` (trend_analysis.py line 119). -/
def new_entries (cfg : Config) (apps : List RawApp) : List String :=
  sort_strings ((curr_top5_set cfg apps).filter
    (fun n => decide (n ∉ prev_top5_set cfg apps)))

/-- Sorted names that fell out of the top N,
`sorted(prev_top5_set - curr_top5_set)` (trend_analysis.py line 120). -/
def displaced_apps (cfg : Config) (apps : List RawApp) : List String :=
  sort_strings ((prev_top5_set cfg apps).filter
    (fun n => decide (n ∉ curr_top5_set cfg apps)))

/-- Minimum filled current rank among the rows carrying a name,
`rank_df.loc[rank_df["app_name"] == new_app, "current_rank"].min()`
(trend_analysis.py line 127). -/
def min_current_rank (cfg : Config) (apps : List RawApp) (n : String) : Option ℤ :=
  ((apps.filter (fun a => a.app_name == n)).map (current_rank_filled cfg)).min?

/-- One row of the newcomers table (trend_analysis.py line 113). -/
structure NewcomerRow where
  app_name : String
  current_rank : Option ℤ
  displaced_app : String
  deriving DecidableEq

/-- The `for i, new_app in enumerate(new_entries)` loop of
trend_analysis.py lines 123-129: each entrant, in order, is paired with
the displaced app at the same index, or `"N/A"` when the displaced list
is shorter. -/
def newcomers_loop (cfg : Config) (apps : List RawApp) (disp : List String) :
    ℕ → List String → List NewcomerRow
  | _, [] => []
  | i, a :: rest =>
      ⟨a, min_current_rank cfg apps a, (disp[i]?).getD "N/A"⟩ ::
        newcomers_loop cfg apps disp (i + 1) rest

/-- The newcomers table (trend_analysis.py lines 112-129). -/
def newcomers_table (cfg : Config) (apps : List RawApp) : List NewcomerRow :=
  newcomers_loop cfg apps (displaced_apps cfg apps) 0 (new_entries cfg apps)

/-- The two ways `trend_analysis.main` aborts: the explicit
`raise KeyError` of line 39 for missing required columns, and a Python
`NameError` for a variable read before any assignment (`recent_reviews`
at line 69, `weekly_counts` at line 87). -/
inductive PyErr where
  | keyError : List String → PyErr
  | nameError : String → PyErr
  deriving DecidableEq

/-- The three tables `trend_analysis.main` writes to the report
(lines 131-147). -/
structure TrendReport where
  explosive_reviews : List ExploRow
  ranking_jumps : List JumpRow
  newcomers : List NewcomerRow
  deriving DecidableEq

/-- The control flow of `trend_analysis.main` (trend_analysis.py lines
30-147) on materialized inputs.  After the required-columns check and
the ad filter, `recent_reviews` is only assigned when both the rankings
table and the review log are non-empty (line 62), so line 69 raises
`NameError` otherwise; `weekly_counts` is only assigned when the recent
selection is non-empty (lines 69-71), so the debug print at line 87
raises `NameError` otherwise.  When the run survives both reads it
writes the three tables. -/
def trend_main (cfg : Config) (apps : List RawApp) (revs : List ReviewRow) :
    Except PyErr TrendReport :=
  if (missing_columns apps).isEmpty then
    let rank_df := ad_filtered apps
    if rank_df.isEmpty || revs.isEmpty then
      Except.error (PyErr.nameError "recent_reviews")
    else
      let recent := recent_reviews cfg revs
      if recent.isEmpty then Except.error (PyErr.nameError "weekly_counts")
      else
        Except.ok
          { explosive_reviews := explosive_reviews_table cfg rank_df recent
            ranking_jumps := ranking_jumps_table cfg rank_df
            newcomers := newcomers_table cfg rank_df }
  else Except.error (PyErr.keyError (missing_columns apps))

/-- Whether a run result is the `KeyError` abort. -/
def is_key_error (r : Except PyErr TrendReport) : Bool :=
  match r with
  | .error (.keyError _) => true
  | _ => false

/-- Follows the words of the spec (section 4.3): `window_count` is the
number of an entity's reviews dated at least `now - (W - 1)` days, with
`now` the maximum parseable review date in the log; 0 when the log has
no parseable date.  Used to state claims against the code's tables. -/
def spec_window_count (cfg : Config) (revs : List ReviewRow) (n : String) : ℕ :=
  match last_review_date revs with
  | none => 0
  | some d =>
      (revs.filter (fun r =>
        r.app_name == n &&
          match r.review_date with
          | some x => decide (d - (cfg.lookback_days - 1) ≤ x)
          | none => false)).length

/-- Follows the words of the spec (section 4.2, tie-break rule): order
jump rows by `rank_change` descending, ties broken by name ascending.
Declared only to be compared against `ranking_jumps_table`. -/
def spec_jump_le (r1 r2 : JumpRow) : Prop :=
  r2.rank_change < r1.rank_change ∨
    (r1.rank_change = r2.rank_change ∧ str_le r1.app_name r2.app_name)

instance : DecidableRel spec_jump_le := fun r1 r2 =>
  inferInstanceAs (Decidable (_ ∨ _))

/-- The ranking-jumps table ordered as the spec describes it. -/
def spec_sorted_jumps (cfg : Config) (apps : List RawApp) : List JumpRow :=
  ((apps.filter (jump_pred cfg)).map (jump_row cfg)).insertionSort spec_jump_le

/-- A JSON value, the shape universe of `data/past_apps.json` as read by
`check_new_apps.load_past_apps`. -/
inductive Json where
  | obj : List (String × Json) → Json
  | arr : List Json → Json
  | str : String → Json
  | num : ℤ → Json
  | bool : Bool → Json
  | null : Json

/-- State of the persisted snapshot file as `load_past_apps` observes it:
the file may be absent, read as an empty string after `strip()`, fail
`json.loads`, or parse to a JSON value. -/
inductive FileState where
  | absent : FileState
  | blank : FileState
  | malformed : FileState
  | parsed : Json → FileState

/-- The default structure `{"all_apps": [], "new_apps": [], "top_5": []}`
returned by `load_past_apps` on every reset path
(check_new_apps.py lines 122, 129, 139, 142). -/
def empty_past_data : Json :=
  .obj [("all_apps", .arr []), ("new_apps", .arr []), ("top_5", .arr [])]

/-- Translation of `check_new_apps.load_past_apps` (lines 118-142):
missing file, blank file and corrupted JSON reset to the default
structure; a parsed dict is returned unchanged; a parsed list is wrapped
as the `all_apps` of an otherwise empty structure; any other value
resets.  `json.dump`/`json.loads` round-trip on JSON values, so the file
is modelled by the value it parses to. -/
def load_past_apps : FileState → Json
  | .absent => empty_past_data
  | .blank => empty_past_data
  | .malformed => empty_past_data
  | .parsed j =>
      match j with
      | .obj fields => .obj fields
      | .arr elems => .obj [("all_apps", .arr elems), ("new_apps", .arr []), ("top_5", .arr [])]
      | _ => empty_past_data

/-- Translation of `check_new_apps.save_current_apps` (lines 144-148):
`json.dump` writes the value, so the file then parses back to it. -/
def save_current_apps (data : Json) : FileState := .parsed data

/-- Number of entries in the `all_apps` key of a loaded structure. -/
def all_apps_count : Json → ℕ
  | .obj fields =>
      match fields.lookup "all_apps" with
      | some (.arr l) => l.length
      | _ => 0
  | _ => 0

/-- Whether a JSON value is a well-formed snapshot dict: an object
carrying the `all_apps`, `new_apps` and `top_5` keys that
`compare_apps` writes (check_new_apps.py lines 229-234). -/
def is_snapshot_dict : Json → Bool
  | .obj fields =>
      (fields.lookup "all_apps").isSome
        && (fields.lookup "new_apps").isSome
        && (fields.lookup "top_5").isSome
  | _ => false

/-- A record of `past_data["all_apps"]` as `compare_apps` reads it
(check_new_apps.py line 218): a name and `app.get("rank", None)`; ads
carry a null rank (fetch_apps writes `"rank": None if is_ad else rank`,
line 104). -/
structure PastEntry where
  name : String
  rank : Option ℤ
  deriving DecidableEq

/-- A freshly fetched app as `compare_apps` consumes it
(check_new_apps.py lines 220-233). -/
structure CurrEntry where
  name : String
  rank : Option ℤ
  ad : Bool
  deriving DecidableEq

/-- A ranking-change record (check_new_apps.py line 227). -/
structure RankChangeRec where
  name : String
  old_rank : ℤ
  new_rank : Option ℤ
  deriving DecidableEq

/-- The dict `{app["name"]: app.get("rank", None) for app in past}` of
check_new_apps.py line 218: when a name occurs several times the last
occurrence wins; `none` means the name is absent from the dict. -/
def past_apps_dict (past : List PastEntry) (n : String) : Option (Option ℤ) :=
  (past.reverse.find? (fun p => p.name == n)).map (fun p => p.rank)

/-- The new-apps selection of check_new_apps.py line 231: current apps
whose name is not a key of the past dict. -/
def new_apps (past : List PastEntry) (current : List CurrEntry) : List CurrEntry :=
  current.filter (fun a => (past_apps_dict past a.name).isNone)

/-- The ranking-changes loop of check_new_apps.py lines 223-227:
`past_apps.get(name, None)` flattens a null-ranked past entry and an
absent key to the same `None`, and only a non-`None` previous rank that
differs from the current rank yields a record. -/
def ranking_changes (past : List PastEntry) (current : List CurrEntry) :
    List RankChangeRec :=
  current.filterMap (fun a =>
    match (past_apps_dict past a.name).join with
    | some p => if a.rank ≠ some p then some ⟨a.name, p, a.rank⟩ else none
    | none => none)

/-- The top-5 selection of check_new_apps.py line 233: first five
organic (non-ad) current apps. -/
def top_5 (current : List CurrEntry) : List CurrEntry :=
  (current.filter (fun a => !a.ad)).take 5

/-- A review record of the spec's Review Aggregator (spec section 3):
an entity name, a date (`none` when unparseable) and a star rating. -/
structure SpecReview where
  entity_name : String
  review_date : Option ℤ
  star_rating : ℚ
  deriving DecidableEq

/-- Modelled from the spec: the reference now of the Review Aggregator
(spec section 4.3), the maximum parseable review date of the log.  The
window mean rating and the rating_drop rule of the Trend Classifier
(spec section 4.4) are not implemented anywhere under src/ —
trend_analysis.py computes only review counts, ranking jumps and
newcomers — so sections 4.3-4.4 are modelled here in the spec's words. -/
def spec_now (log : List SpecReview) : Option ℤ :=
  (log.filterMap (fun r => r.review_date)).max?

/-- Modelled from the spec: an entity's reviews inside the lookback
window of W days anchored at the latest observed date
(spec section 4.3). -/
def spec_window_reviews (W : ℤ) (log : List SpecReview) (e : String) :
    List SpecReview :=
  match spec_now log with
  | none => []
  | some d =>
      log.filter (fun r =>
        r.entity_name == e &&
          match r.review_date with
          | some x => decide (d - (W - 1) ≤ x)
          | none => false)

/-- Modelled from the spec: `window_mean_rating`, the arithmetic mean of
star ratings over the windowed set, absent (not zero) when the set is
empty (spec section 4.3). -/
def window_mean_rating (W : ℤ) (log : List SpecReview) (e : String) : Option ℚ :=
  let s := spec_window_reviews W log e
  if s.isEmpty then none
  else some ((s.map (fun r => r.star_rating)).sum / s.length)

/-- Modelled from the spec: the `rating_drop` rule of the Trend
Classifier (spec section 4.4) — flag iff `overall_score` and
`window_mean_rating` are both present and their difference exceeds the
threshold. -/
def rating_drop_alert (t : ℚ) (overall : Option ℚ) (wm : Option ℚ) : Bool :=
  match overall, wm with
  | some o, some m => decide (t < o - m)
  | _, _ => false

/-- A rankings row with all three cells present and organic, previously
ranked 1. -/
def ex_ranked_app : RawApp :=
  ⟨"Quizify", some (.num 1), some (.num 1), some (.bool false)⟩

/-- A review log whose single row has an unparseable date. -/
def ex_bad_date_log : List ReviewRow := [⟨"Quizify", none⟩]

/-- A review log with one parseable date. -/
def ex_good_log : List ReviewRow := [⟨"Quizify", some 0⟩]

/-- Counterexample input for C4: the `previous_rank` key is absent from
every record, so the rankings DataFrame has no `previous_rank` column. -/
def c4_apps : List RawApp := [⟨"Quizify", none, some (.num 1), some (.bool false)⟩]

/-- Scenario C input (spec section 8): one organic app previously ranked
1, currently ranked 9 — an evictee of the top 5 with no entrant. -/
def c2_apps : List RawApp := [⟨"Acme", some (.num 1), some (.num 9), some (.bool false)⟩]

/-- Two organic apps with the same rank change of 5, listed with
name-ascending input order. -/
def c6_apps : List RawApp :=
  [⟨"AlphaApp", some (.num 10), some (.num 5), some (.bool false)⟩,
   ⟨"BetaApp", some (.num 10), some (.num 5), some (.bool false)⟩]

/-- Rank snapshot for the C7 counterexample: only `Quizify` is ranked. -/
def c7_apps : List RawApp := [ex_ranked_app]

/-- Review log for the C7 counterexample: three recent reviews of
`Gloria`, an entity absent from the rank snapshot. -/
def c7_revs : List ReviewRow :=
  [⟨"Gloria", some 0⟩, ⟨"Gloria", some 0⟩, ⟨"Gloria", some 0⟩]

/-- Past snapshot for the C10 witness: one entry that only ever appeared
as an ad, with a null rank. -/
def c10_past : List PastEntry := [⟨"AdOnly", none⟩]

/-- Current snapshot for the C10 witness. -/
def c10_current : List CurrEntry := [⟨"AdOnly", some 3, false⟩, ⟨"Fresh", some 1, false⟩]

/-- C1: the claim says the run never aborts on an empty review log, an
all-unparseable review log, or an empty ranking snapshot.  The code
aborts on each: with an empty (or missing) review log, `recent_reviews`
is never assigned and line 69 raises `NameError`; with no parseable
dates the recent selection is empty, `weekly_counts` is never assigned
and the debug print at line 87 raises `NameError`; with an empty
ranking snapshot the DataFrame has no columns and line 39 raises
`KeyError` — despite the code's own comments claiming the `NameError`s
are avoided. -/
theorem C1_run_aborts :
    trend_main defaultConfig [ex_ranked_app] []
      = Except.error (PyErr.nameError "recent_reviews")
    ∧ trend_main defaultConfig [ex_ranked_app] ex_bad_date_log
      = Except.error (PyErr.nameError "weekly_counts")
    ∧ trend_main defaultConfig [] ex_good_log
      = Except.error (PyErr.keyError ["app_name", "previous_rank", "rank"]) :=
  ⟨rfl, rfl, rfl⟩

/-- C2 counterexample: on Scenario C of the spec (Acme falls from rank 1
to rank 9 with `top_n = 5` and nobody enters), the claim promises a
`top_n_evictee` record for Acme; the code's newcomers table — the only
top-N output it reports — is empty, because the loop iterates over
entrants only, even though Acme is in the displaced set. -/
theorem C2_counterexample :
    newcomers_table defaultConfig c2_apps = []
    ∧ displaced_apps defaultConfig c2_apps = ["Acme"] := by
  exact ⟨rfl, rfl⟩

/-- C4 counterexample: with `previous_rank` absent from every record of
the rank diff input, the claim promises the sentinel default 300 and a
completing run; the code raises `KeyError` at line 39 instead. -/
theorem C4_counterexample :
    trend_main defaultConfig c4_apps ex_good_log
      = Except.error (PyErr.keyError ["previous_rank"]) :=
  rfl

/-- C6 counterexample: two apps with equal rank change, input-ordered
AlphaApp before BetaApp.  The claim promises ties broken by name
ascending, which would report AlphaApp first; the code sorts by
rank change only (stable ascending, then reversed for the descending
order), reporting BetaApp first. -/
theorem C6_counterexample :
    ranking_jumps_table defaultConfig c6_apps ≠ spec_sorted_jumps defaultConfig c6_apps
    ∧ (ranking_jumps_table defaultConfig c6_apps).map (fun r => r.app_name)
      = ["BetaApp", "AlphaApp"] := by
  refine ⟨by decide, rfl⟩

/-- C7 counterexample: Gloria has three reviews in the window and the
threshold is 2, so the claim promises an explosive-review alert for
Gloria; but Gloria is absent from the rank snapshot, the `reindex` at
line 74 drops her counts, and the run reports no alert at all. -/
theorem C7_counterexample :
    trend_main defaultConfig c7_apps c7_revs = Except.ok ⟨[], [], []⟩
    ∧ spec_window_count defaultConfig c7_revs "Gloria" = 3
    ∧ defaultConfig.review_threshold < 3 := by
  refine ⟨rfl, rfl, by decide⟩

/-- C8 counterexample: a persisted list — a shape the code itself warns
is not the expected format — is not reset to the empty snapshot: its
entries are kept as `all_apps`, so the loaded state has one entity where
the claim promises zero; and an unexpected-shaped dict is passed through
unchanged, without the well-formed snapshot keys. -/
theorem C8_counterexample :
    all_apps_count (load_past_apps (.parsed (.arr [Json.null]))) ≠ 0
    ∧ is_snapshot_dict (load_past_apps (.parsed (.obj [("surprise", .num 1)]))) = false := by
  refine ⟨by decide, rfl⟩

/-- C8 as amended: `load_past_apps` never fails, and missing, blank,
unparseable and scalar-shaped states reset to the empty default
structure; but a persisted list is converted to a snapshot that keeps
its entries as `all_apps` (not reset to "no history"), and any parsed
dict is returned unchanged whatever its shape. -/
theorem C8_load_behavior :
    load_past_apps .absent = empty_past_data
    ∧ load_past_apps .blank = empty_past_data
    ∧ load_past_apps .malformed = empty_past_data
    ∧ (∀ s, load_past_apps (.parsed (.str s)) = empty_past_data)
    ∧ (∀ k, load_past_apps (.parsed (.num k)) = empty_past_data)
    ∧ (∀ b, load_past_apps (.parsed (.bool b)) = empty_past_data)
    ∧ load_past_apps (.parsed .null) = empty_past_data
    ∧ (∀ l, load_past_apps (.parsed (.arr l))
        = .obj [("all_apps", .arr l), ("new_apps", .arr []), ("top_5", .arr [])])
    ∧ (∀ fields, load_past_apps (.parsed (.obj fields)) = .obj fields)
    ∧ all_apps_count empty_past_data = 0 :=
  ⟨rfl, rfl, rfl, fun _ => rfl, fun _ => rfl, fun _ => rfl, rfl, fun _ => rfl,
    fun _ => rfl, rfl⟩

/-- C9: loading immediately after saving a well-formed snapshot dict
returns the same value — `save_current_apps` persists the JSON value and
`load_past_apps` returns any parsed dict unchanged. -/
theorem C9_round_trip (j : Json) (h : is_snapshot_dict j = true) :
    load_past_apps (save_current_apps j) = j := by
  cases j <;> simp_all [is_snapshot_dict, load_past_apps, save_current_apps]

/-- Witness for C9 at the concrete snapshot `empty_past_data`. -/
theorem C9_witness :
    is_snapshot_dict empty_past_data = true
    ∧ load_past_apps (save_current_apps empty_past_data) = empty_past_data :=
  ⟨rfl, C9_round_trip empty_past_data rfl⟩

/-- C4 as amended: missing rank values — key absent on that record,
explicit null, or non-numeric — default to the sentinel 300 for
`previous_rank` and to `max_rank_analysis` for `current_rank`, and a run
whose input is non-empty and carries both rank columns never aborts with
the `KeyError`; defaulting only happens per-value, for the claim's
column-absent-everywhere input the run aborts instead
(`C4_counterexample`). -/
theorem C4_missing_value_defaults :
    (∀ a : RawApp, a.previous_rank.bind toNumeric = none → prev_rank_filled a = 300)
    ∧ (∀ (cfg : Config) (a : RawApp), a.rank.bind toNumeric = none →
        current_rank_filled cfg a = cfg.max_rank_analysis)
    ∧ (∀ (cfg : Config) (apps : List RawApp) (revs : List ReviewRow),
        apps ≠ [] →
        (apps.any fun a => a.previous_rank.isSome) = true →
        (apps.any fun a => a.rank.isSome) = true →
        is_key_error (trend_main cfg apps revs) = false) := by
  refine ⟨?_, ?_, ?_⟩
  · intro a h
    unfold prev_rank_filled
    rw [h]
    rfl
  · intro cfg a h
    unfold current_rank_filled
    rw [h]
    rfl
  · intro cfg apps revs h1 h2 h3
    have hne : apps.isEmpty = false := by
      cases apps with
      | nil => exact absurd rfl h1
      | cons a l => rfl
    have hm : missing_columns apps = [] := by
      unfold missing_columns
      rw [hne, h2, h3]
      rfl
    unfold trend_main
    rw [hm]
    simp only [List.isEmpty_nil, if_true]
    split
    · rfl
    · split
      · rfl
      · rfl

/-- Witness for C4's amended theorem: a record with the key absent
defaults to 300, and a run whose input carries both columns does not
abort with the `KeyError`. -/
theorem C4_witness :
    prev_rank_filled ⟨"Quizify", none, some (.num 1), some (.bool false)⟩ = 300
    ∧ is_key_error (trend_main defaultConfig [ex_ranked_app] []) = false :=
  ⟨C4_missing_value_defaults.1 _ rfl,
    C4_missing_value_defaults.2.2 defaultConfig [ex_ranked_app] [] (by decide)
      (by decide) (by decide)⟩

/-- Names of the rows built by the newcomers loop are exactly the
entrants it iterates over. -/
theorem newcomers_loop_names (cfg : Config) (apps : List RawApp) (disp : List String) :
    ∀ (ne : List String) (i : ℕ),
      (newcomers_loop cfg apps disp i ne).map (fun r => r.app_name) = ne
  | [], _ => rfl
  | a :: rest, i => by
      simp [newcomers_loop, newcomers_loop_names cfg apps disp rest (i + 1)]

/-- Unfolding equation of the newcomers loop on the empty entrant list. -/
theorem newcomers_loop_nil (cfg : Config) (apps : List RawApp) (disp : List String)
    (i : ℕ) : newcomers_loop cfg apps disp i [] = [] := rfl

/-- Unfolding equation of the newcomers loop on a non-empty entrant
list. -/
theorem newcomers_loop_cons (cfg : Config) (apps : List RawApp) (disp : List String)
    (i : ℕ) (a : String) (rest : List String) :
    newcomers_loop cfg apps disp i (a :: rest)
      = ⟨a, min_current_rank cfg apps a, (disp[i]?).getD "N/A"⟩ ::
          newcomers_loop cfg apps disp (i + 1) rest := rfl

/-- The displaced app of the k-th row built by the newcomers loop
started at index i comes from position i + k of the displaced list. -/
theorem newcomers_loop_get (cfg : Config) (apps : List RawApp) (disp : List String) :
    ∀ (ne : List String) (i k : ℕ),
      ((newcomers_loop cfg apps disp i ne)[k]?).map (fun r => r.displaced_app)
        = (ne[k]?).map (fun _ => (disp[i + k]?).getD "N/A")
  | [], i, k => by
      rw [newcomers_loop_nil]
      simp
  | a :: rest, i, 0 => by
      rw [newcomers_loop_cons]
      simp
  | a :: rest, i, k + 1 => by
      have h := newcomers_loop_get cfg apps disp rest (i + 1) k
      rw [newcomers_loop_cons, List.getElem?_cons_succ, List.getElem?_cons_succ,
        show i + (k + 1) = i + 1 + k from by omega]
      exact h

/-- C2 as amended: the newcomers table lists exactly the name-sorted
entrants of the top N, one row per entrant, and pairs the i-th entrant
by position with the i-th name-sorted displaced app (or `"N/A"` when
the displaced list is shorter); consequently a displaced app with no
entrant yields no record at all. -/
theorem C2_newcomers_pairing (cfg : Config) (apps : List RawApp) :
    (newcomers_table cfg apps).map (fun r => r.app_name) = new_entries cfg apps
    ∧ (newcomers_table cfg apps).length = (new_entries cfg apps).length
    ∧ ∀ k : ℕ,
        ((newcomers_table cfg apps)[k]?).map (fun r => r.displaced_app)
          = ((new_entries cfg apps)[k]?).map
              (fun _ => ((displaced_apps cfg apps)[k]?).getD "N/A") := by
  refine ⟨?_, ?_, ?_⟩
  · exact newcomers_loop_names cfg apps (displaced_apps cfg apps) (new_entries cfg apps) 0
  · have h2 : (newcomers_table cfg apps).map (fun r => r.app_name) = new_entries cfg apps :=
      newcomers_loop_names cfg apps (displaced_apps cfg apps) (new_entries cfg apps) 0
    rw [← h2, List.length_map]
  · intro k
    have h := newcomers_loop_get cfg apps (displaced_apps cfg apps) (new_entries cfg apps) 0 k
    simpa using h

/-- Membership in the name column of the ranking-jumps table, unwound
through the column selection, the sort and the filter. -/
theorem mem_ranking_jumps_names (cfg : Config) (apps : List RawApp) (n : String) :
    n ∈ (ranking_jumps_table cfg apps).map (fun r => r.app_name) ↔
      ∃ a, a ∈ apps ∧ a.app_name = n ∧ prev_rank_filled a < 300 ∧
        cfg.rank_jump_threshold < rank_change cfg a ∧
        (prev_rank_filled a ≤ cfg.max_rank_analysis ∨
          current_rank_filled cfg a ≤ cfg.max_rank_analysis) := by
  unfold ranking_jumps_table
  simp only [List.map_map, List.mem_map, Function.comp, List.mem_reverse,
    (List.perm_insertionSort (jump_le cfg) _).mem_iff, List.mem_filter, jump_pred,
    Bool.and_eq_true, Bool.or_eq_true, decide_eq_true_eq, jump_row]
  constructor
  · rintro ⟨a, ⟨ha, ⟨h1, h2⟩, h3⟩, hn⟩
    exact ⟨a, ha, hn, h1, h2, h3⟩
  · rintro ⟨a, ha, hn, h1, h2, h3⟩
    exact ⟨a, ⟨ha, ⟨h1, h2⟩, h3⟩, hn⟩

/-- C3: a name appears in the ranking-jumps table iff some rankings row
carrying it was previously known (`previous_rank < 300` after the fill),
its rank change strictly exceeds the threshold, and at least one of its
ranks is within `max_rank_analysis`; in particular a name all of whose
rows carry the sentinel previous rank 300 never appears. -/
theorem C3_rank_jump_iff (cfg : Config) (apps : List RawApp) (n : String) :
    (n ∈ (ranking_jumps_table cfg apps).map (fun r => r.app_name) ↔
      ∃ a, a ∈ apps ∧ a.app_name = n ∧ prev_rank_filled a < 300 ∧
        cfg.rank_jump_threshold < rank_change cfg a ∧
        (prev_rank_filled a ≤ cfg.max_rank_analysis ∨
          current_rank_filled cfg a ≤ cfg.max_rank_analysis))
    ∧ ((∀ a, a ∈ apps → a.app_name = n → prev_rank_filled a = 300) →
        n ∉ (ranking_jumps_table cfg apps).map (fun r => r.app_name)) := by
  refine ⟨mem_ranking_jumps_names cfg apps n, ?_⟩
  intro hall hmem
  obtain ⟨a, ha, hn, h1, -, -⟩ := (mem_ranking_jumps_names cfg apps n).mp hmem
  rw [hall a ha hn] at h1
  exact absurd h1 (lt_irrefl 300)

/-- Witness for C3 at a concrete input: the app previously at the
sentinel rank 300 is never reported as a jump, whatever its current
rank. -/
theorem C3_witness :
    "Ghost" ∉ (ranking_jumps_table defaultConfig
      [⟨"Ghost", some (.num 300), some (.num 1), some (.bool false)⟩]).map
        (fun r => r.app_name) :=
  (C3_rank_jump_iff defaultConfig
    [⟨"Ghost", some (.num 300), some (.num 1), some (.bool false)⟩] "Ghost").2
    (by decide)

/-- C6 as amended: the ranking-jumps table is ordered by rank change
descending and is a permutation of the filtered jump rows; the order is
a deterministic function of the input, but ties are left in the order
the sort produces (reverse of input order), not re-sorted by name
(`C6_counterexample`). -/
theorem C6_sorted_desc (cfg : Config) (apps : List RawApp) :
    List.Pairwise (fun r1 r2 : JumpRow => r2.rank_change ≤ r1.rank_change)
      (ranking_jumps_table cfg apps)
    ∧ (ranking_jumps_table cfg apps).Perm
        ((apps.filter (jump_pred cfg)).map (jump_row cfg)) := by
  constructor
  · unfold ranking_jumps_table
    rw [List.pairwise_map, List.pairwise_reverse]
    exact List.Pairwise.imp (fun h => h)
      (List.sorted_insertionSort (jump_le cfg) (apps.filter (jump_pred cfg)))
  · unfold ranking_jumps_table
    exact ((List.reverse_perm _).trans
      (List.perm_insertionSort (jump_le cfg) _)).map (jump_row cfg)

/-- Counting a name inside the code's recent selection agrees with the
spec's `window_count`. -/
theorem window_count_in_recent_eq (cfg : Config) (revs : List ReviewRow) (n : String) :
    window_count_in (recent_reviews cfg revs) n = spec_window_count cfg revs n := by
  unfold window_count_in recent_reviews spec_window_count
  cases h : last_review_date revs with
  | none => rfl
  | some d =>
      rw [List.filter_filter]

/-- C7 as amended: a name appears in the explosive-reviews table iff it
appears in the (ad-filtered) rankings table and its window count —
reviews dated at least `now - (W - 1)` days with `now` the latest
parseable date in the log — strictly exceeds the review threshold;
review-log entities absent from the rankings table are dropped by the
`reindex` and never alerted. -/
theorem C7_explosive_iff (cfg : Config) (apps : List RawApp) (revs : List ReviewRow)
    (n : String) :
    n ∈ (explosive_reviews_table cfg apps (recent_reviews cfg revs)).map
        (fun r => r.app_name) ↔
      (n ∈ apps.map (fun a => a.app_name) ∧
        cfg.review_threshold < spec_window_count cfg revs n) := by
  unfold explosive_reviews_table weekly_counts
  simp only [List.map_map, List.mem_map, Function.comp, List.mem_filter,
    List.map_map, decide_eq_true_eq]
  constructor
  · rintro ⟨p, ⟨hp, hq⟩, hn⟩
    obtain ⟨a, ha, hpa⟩ := hp
    refine ⟨⟨a, ha, ?_⟩, ?_⟩
    · rw [← hpa] at hn
      exact hn
    · rw [← hpa] at hq hn
      rw [← hn, ← window_count_in_recent_eq cfg revs]
      exact hq
  · rintro ⟨⟨a, ha, hn⟩, hcount⟩
    refine ⟨(n, window_count_in (recent_reviews cfg revs) n), ⟨⟨a, ha, ?_⟩, ?_⟩, rfl⟩
    · rw [hn]
    · rw [window_count_in_recent_eq cfg revs]
      exact hcount

/-- C5: the spec's rating-drop rule flags an entity iff the overall
score is present, the window mean rating is present, and their
difference strictly exceeds the threshold; with an empty windowed review
set the mean is absent and no alert fires.  The rule itself is absent
from src/ and is modelled from the spec (sections 4.3-4.4). -/
theorem C5_rating_drop_iff :
    (∀ (t : ℚ) (overall : Option ℚ) (W : ℤ) (log : List SpecReview) (e : String),
      rating_drop_alert t overall (window_mean_rating W log e) = true ↔
        ∃ o m, overall = some o ∧ window_mean_rating W log e = some m ∧ t < o - m)
    ∧ (∀ (t : ℚ) (overall : Option ℚ) (W : ℤ) (log : List SpecReview) (e : String),
        spec_window_reviews W log e = [] →
        rating_drop_alert t overall (window_mean_rating W log e) = false) := by
  constructor
  · intro t overall W log e
    cases overall with
    | none =>
        cases window_mean_rating W log e <;> simp [rating_drop_alert]
    | some o =>
        cases h : window_mean_rating W log e with
        | none => simp [rating_drop_alert, h]
        | some m => simp [rating_drop_alert, h]
  · intro t overall W log e h
    have hm : window_mean_rating W log e = none := by
      unfold window_mean_rating
      rw [h]
      rfl
    rw [hm]
    cases overall <;> rfl

/-- Witness for C5: Quizify has no reviews in the window (the log only
holds reviews of another entity), so the mean is absent and no
rating-drop alert fires even with an overall score present. -/
theorem C5_witness :
    rating_drop_alert (2/10) (some (9/2))
      (window_mean_rating 30 [⟨"Gloria", some 0, 5⟩] "Quizify") = false :=
  C5_rating_drop_iff.2 (2/10) (some (9/2)) 30 [⟨"Gloria", some 0, 5⟩] "Quizify" rfl

/-- A name all of whose past entries carry a null rank maps to
`some none` in the past dict: the key exists but its value is `None`. -/
theorem past_apps_dict_null (past : List PastEntry) (n : String)
    (hex : ∃ p ∈ past, p.name = n)
    (hall : ∀ p ∈ past, p.name = n → p.rank = none) :
    past_apps_dict past n = some none := by
  unfold past_apps_dict
  obtain ⟨p, hp, hpn⟩ := hex
  have hsome : (past.reverse.find? (fun q => q.name == n)).isSome := by
    rw [List.find?_isSome]
    exact ⟨p, List.mem_reverse.mpr hp, by simp [hpn]⟩
  obtain ⟨q, hq⟩ := Option.isSome_iff_exists.mp hsome
  have hqmem : q ∈ past := List.mem_reverse.mp (List.mem_of_find?_eq_some hq)
  have hqn : q.name = n := by simpa using List.find?_some hq
  rw [hq]
  simp [hall q hqmem hqn]

/-- C10: an entity whose name appeared in the previous snapshot only
with a null rank (an ad) is not classified as a new app — its name is a
key of the past dict — and yields no ranking-change record, because
`past_apps.get` returns `None` for it and the check skips `None`. -/
theorem C10_ad_only_previous (past : List PastEntry) (current : List CurrEntry)
    (n : String)
    (hex : ∃ p ∈ past, p.name = n)
    (hall : ∀ p ∈ past, p.name = n → p.rank = none) :
    n ∉ (new_apps past current).map (fun a => a.name)
    ∧ n ∉ (ranking_changes past current).map (fun c => c.name) := by
  have hdict : past_apps_dict past n = some none := past_apps_dict_null past n hex hall
  constructor
  · intro hmem
    simp only [new_apps, List.mem_map, List.mem_filter] at hmem
    obtain ⟨a, ⟨ha, hnone⟩, han⟩ := hmem
    rw [han, hdict] at hnone
    exact absurd hnone (by simp)
  · intro hmem
    simp only [ranking_changes, List.mem_map, List.mem_filterMap] at hmem
    obtain ⟨c, ⟨a, ha, hfa⟩, hcn⟩ := hmem
    by_cases han : a.name = n
    · rw [han, hdict] at hfa
      simp at hfa
    · cases hj : (past_apps_dict past a.name).join with
      | none =>
          rw [hj] at hfa
          simp at hfa
      | some p =>
          rw [hj] at hfa
          have h2 : (if a.rank ≠ some p then
              some (⟨a.name, p, a.rank⟩ : RankChangeRec) else none) = some c := hfa
          by_cases hr : a.rank ≠ some p
          · rw [if_pos hr] at h2
            have hc : (⟨a.name, p, a.rank⟩ : RankChangeRec) = c := by
              injection h2
            exact han (by rw [← hc] at hcn; exact hcn)
          · rw [if_neg hr] at h2
            simp at h2

/-- Witness for C10: `AdOnly` appeared before only as an ad with a null
rank; it is neither reported new nor given a ranking change. -/
theorem C10_witness :
    "AdOnly" ∉ (new_apps c10_past c10_current).map (fun a => a.name)
    ∧ "AdOnly" ∉ (ranking_changes c10_past c10_current).map (fun c => c.name) :=
  C10_ad_only_previous c10_past c10_current "AdOnly" (by decide) (by decide)
